import Mathlib

/-!
Verification of the schema-validation diagnostics engine shared (in
duplicated form) by the `babel-config/is-valid` and
`typescript-config/is-valid` rules.

The embedding follows the two source files
`packages/rule-typescript-config/src/is-valid.ts` and the babel copy:
validator error records are value records, the per-keyword message
generators are functions returning `Option String` (`null` becomes
`none`), `prettyfy` is the reduce over the generator list, `report`
produces the ordered list of diagnostics for one group, and the
`invalidSchema` handler groups the errors by `dataPath` (lodash
`groupBy`: buckets keyed by `dataPath`, keys in first-insertion order,
each bucket in original order) and concatenates every group's report.
-/

namespace Sonarwhal

/-- An ajv `ErrorObject` as consumed by the rules.  The per-keyword
`params` variant is flattened into the two fields `allowedValues`
(for `enum`) and `additionalProperty` (for `additionalProperties`);
the `data` value is modelled by its string rendering, which is the
only way the rules use it (template interpolation). -/
structure ErrorObject where
  keyword : String
  dataPath : String
  message : String
  data : String
  allowedValues : List String
  additionalProperty : String
deriving DecidableEq, Repr

/-- JavaScript `String.prototype.substr(1)`: drop the first character
(the empty string stays empty). -/
def substr1 (s : String) : String := s.drop 1

/-- JavaScript `message.replace(/"/g, ...)` with a single-quote
replacement: every double-quote character becomes a single quote. -/
def replaceQuotes (s : String) : String :=
  String.mk (s.data.map (fun c => if c = '\x22' then '\x27' else c))

/-- `generateAdditionalPropertiesError` (identical in both dialects). -/
def generateAdditionalPropertiesError (error : ErrorObject) : Option String :=
  if error.keyword ≠ "additionalProperties" then none
  else
    some ("'" ++ substr1 error.dataPath ++ "' " ++ error.message ++
      ". Additional property found '" ++ error.additionalProperty ++ "'.")

/-- `generateEnumError` (identical in both dialects). -/
def generateEnumError (error : ErrorObject) : Option String :=
  if error.keyword ≠ "enum" then none
  else
    some ("'" ++ substr1 error.dataPath ++ "' " ++ error.message ++ " '" ++
      String.intercalate ", " error.allowedValues ++ "'. Value found '" ++
      error.data ++ "'")

/-- `generatePatternError` (typescript dialect only). -/
def generatePatternError (error : ErrorObject) : Option String :=
  if error.keyword ≠ "pattern" then none
  else
    some ("'" ++ substr1 error.dataPath ++ "' " ++
      replaceQuotes error.message ++ ". Value found '" ++ error.data ++ "'")

/-- `generateTypeError` (babel dialect only). -/
def generateTypeError (error : ErrorObject) : Option String :=
  if error.keyword ≠ "type" then none
  else
    some ("'" ++ substr1 error.dataPath ++ "' " ++
      replaceQuotes error.message ++ ".")

/-- One step of the `reduce` in `prettyfy`: keep the accumulated message
unless the generator produced a truthy (non-null, non-empty) string. -/
def applyGenerator (message : String) (generated : Option String) : String :=
  match generated with
  | some m => if m = "" then message else m
  | none => message

/-- The `errorGenerators` array of the typescript dialect. -/
def errorGeneratorsTS : List (ErrorObject → Option String) :=
  [generateAdditionalPropertiesError, generateEnumError, generatePatternError]

/-- The `errorGenerators` array of the babel dialect. -/
def errorGeneratorsBabel : List (ErrorObject → Option String) :=
  [generateAdditionalPropertiesError, generateEnumError, generateTypeError]

/-- `prettyfy`: reduce the generator list, starting from the validator's
own `message`, replacing it with the first truthy generated string. -/
def prettyfy (generators : List (ErrorObject → Option String))
    (error : ErrorObject) : String :=
  generators.foldl (fun message generator => applyGenerator message (generator error))
    error.message

/-- `prettyfy` of the typescript dialect. -/
def prettyfyTS (error : ErrorObject) : String := prettyfy errorGeneratorsTS error

/-- `prettyfy` of the babel dialect. -/
def prettyfyBabel (error : ErrorObject) : String := prettyfy errorGeneratorsBabel error

/-- A diagnostic as passed to `context.report(resource, location, message)`;
the rules always pass `null` for the location. -/
structure Diagnostic where
  resource : String
  location : Option String
  text : String
deriving DecidableEq, Repr

/-- lodash `without(errors, error)`: the list with `error` removed
(the rules call it with an element of the list, which value records
model as removing the equal entries). -/
def without (errors : List ErrorObject) (error : ErrorObject) : List ErrorObject :=
  errors.filter (fun e => e ≠ error)

/-- The message `report` computes for one error of the list it was
called with: for an `anyOf` error, the `prettyfy` results of the other
errors of that same list joined by `" or "`; otherwise `prettyfy`. -/
def reportTextTS (errors : List ErrorObject) (error : ErrorObject) : String :=
  if error.keyword = "anyOf" then
    String.intercalate " or " ((without errors error).map prettyfyTS)
  else prettyfyTS error

/-- `report` of the typescript dialect: one `context.report` call per
error, in order. -/
def reportTS (errors : List ErrorObject) (resource : String) : List Diagnostic :=
  errors.map (fun error => ⟨resource, none, reportTextTS errors error⟩)

/-- `report` of the babel dialect: no `anyOf` special case. -/
def reportBabel (errors : List ErrorObject) (resource : String) : List Diagnostic :=
  errors.map (fun error => ⟨resource, none, prettyfyBabel error⟩)

/-- The key sequence of lodash `groupBy(errors, 'dataPath')`: JS object
keys in insertion order, i.e. each distinct `dataPath` at its first
occurrence. -/
def groupKeys (errors : List ErrorObject) : List String :=
  errors.foldl
    (fun keys e => if e.dataPath ∈ keys then keys else keys ++ [e.dataPath]) []

/-- lodash `groupBy(errors, 'dataPath')`: buckets keyed by `dataPath`,
keys in first-insertion order, each bucket holding its errors in
original relative order. -/
def groupBy (errors : List ErrorObject) : List (String × List ErrorObject) :=
  (groupKeys errors).map
    (fun k => (k, errors.filter (fun e => decide (e.dataPath = k))))

/-- The `invalidSchema` handler of the typescript dialect: group the
errors by `dataPath`, run `report` on every group, and complete once
all groups have reported (`Promise.all`); the result lists every
group's emitted diagnostics, in group order. -/
def invalidSchemaTS (errors : List ErrorObject) (resource : String) :
    List (List Diagnostic) :=
  (groupBy errors).map (fun g => reportTS g.2 resource)

/-- The `invalidSchema` handler of the babel dialect. -/
def invalidSchemaBabel (errors : List ErrorObject) (resource : String) :
    List (List Diagnostic) :=
  (groupBy errors).map (fun g => reportBabel g.2 resource)

/-- The payload of a `parse::…::error::json` event (only the fields the
handler reads). -/
structure JsonError where
  message : String
deriving DecidableEq, Repr

/-- The `invalidJSONFile` handler (textually identical in both
dialects): one `context.report(resource, null, error.message)` call. -/
def invalidJSONFile (error : JsonError) (resource : String) : List Diagnostic :=
  [⟨resource, none, error.message⟩]

/-- Spec-side rendering of an `anyOf` error from the FULL (ungrouped)
error list of the resource, as §4.4 of the spec describes it: the
formatter-chain output of every other error of the full list, joined
by `" or "`. -/
def anyOfMessageFromFullList (errors : List ErrorObject) (error : ErrorObject) :
    String :=
  String.intercalate " or " ((without errors error).map prettyfyTS)

/-- Spec-side "sequence of first occurrences of distinct values":
the head, then the first occurrences of the remaining distinct values. -/
def firstOccurrences : List String → List String
  | [] => []
  | x :: xs => x :: firstOccurrences (xs.filter (fun y => y != x))
termination_by l => l.length
decreasing_by
  simp_wf
  exact Nat.lt_succ_of_le (List.length_filter_le _ _)

/-!  Concrete validator errors used by the counterexample and the
witnesses below. -/

/-- An `enum` error at `dataPath` `/a`. -/
def demoEnumA : ErrorObject :=
  ⟨"enum", "/a", "should be equal to one of the allowed values", "x", ["y", "z"], ""⟩

/-- An `anyOf` error at `dataPath` `/b`. -/
def demoAnyOfB : ErrorObject :=
  ⟨"anyOf", "/b", "should match some schema in anyOf", "", [], ""⟩

/-- An `enum` error at `dataPath` `/t`. -/
def demoEnumT : ErrorObject :=
  ⟨"enum", "/t", "should be equal to one of the allowed values", "invalid",
    ["es5", "es6"], ""⟩

/-- A `pattern` error at `dataPath` `/t`. -/
def demoPatternT : ErrorObject :=
  ⟨"pattern", "/t", "should match pattern \"^es\"", "invalid", [], ""⟩

/-- An `anyOf` error at `dataPath` `/t`. -/
def demoAnyOfT : ErrorObject :=
  ⟨"anyOf", "/t", "should match some schema in anyOf", "", [], ""⟩

/-- An `additionalProperties` error at `dataPath` `/compilerOptions`. -/
def demoAdditionalC : ErrorObject :=
  ⟨"additionalProperties", "/compilerOptions", "should NOT have additional properties",
    "", [], "invalidProperty"⟩

/-- A `type` error at `dataPath` `/presets` whose message contains
double quotes. -/
def demoTypeP : ErrorObject :=
  ⟨"type", "/presets", "should be \"array\"", "", [], ""⟩

end Sonarwhal

namespace Sonarwhal

/-- The character data of a concatenation. -/
lemma string_data_append (a b : String) : (a ++ b).data = a.data ++ b.data := rfl

/-- Strings with equal character data are equal. -/
lemma string_eq_of_data (a b : String) (h : a.data = b.data) : a = b := by
  cases a; cases b; exact congrArg String.mk h

/-- A concatenation is empty exactly when both parts are. -/
lemma string_append_eq_empty_iff (a b : String) : a ++ b = "" ↔ (a = "" ∧ b = "") := by
  constructor
  · intro h
    have h2 : a.data ++ b.data = ([] : List Char) := congrArg String.data h
    rcases List.append_eq_nil.mp h2 with ⟨ha, hb⟩
    exact ⟨congrArg String.mk ha, congrArg String.mk hb⟩
  · rintro ⟨rfl, rfl⟩
    rfl

lemma mem_firstOccurrences (l : List String) (a : String) :
    a ∈ firstOccurrences l ↔ a ∈ l := by
  induction l using firstOccurrences.induct with
  | case1 => simp [firstOccurrences]
  | case2 x xs ih =>
    rw [firstOccurrences]
    by_cases hax : a = x
    · subst hax; simp
    · simp only [List.mem_cons, ih, List.mem_filter, bne_iff_ne, ne_eq]
      constructor
      · rintro (h | ⟨h, -⟩)
        · exact absurd h hax
        · exact Or.inr h
      · rintro (h | h)
        · exact absurd h hax
        · exact Or.inr ⟨h, hax⟩

lemma nodup_firstOccurrences (l : List String) : (firstOccurrences l).Nodup := by
  induction l using firstOccurrences.induct with
  | case1 => simp [firstOccurrences]
  | case2 x xs ih =>
    rw [firstOccurrences]
    refine List.nodup_cons.mpr ⟨?_, ih⟩
    rw [mem_firstOccurrences]
    simp

lemma foldl_keys_go (l : List String) (acc : List String) :
    l.foldl (fun ks x => if x ∈ ks then ks else ks ++ [x]) acc
      = acc ++ firstOccurrences (l.filter (fun x => decide (x ∉ acc))) := by
  induction l generalizing acc with
  | nil => simp [firstOccurrences]
  | cons x xs ih =>
    rw [List.foldl_cons, List.filter_cons]
    by_cases hx : x ∈ acc
    · rw [if_pos hx, if_neg (by simpa using hx)]
      exact ih acc
    · rw [if_neg hx, if_pos (by simpa using hx)]
      rw [ih (acc ++ [x]), firstOccurrences]
      rw [List.append_assoc, List.singleton_append]
      congr 2
      rw [List.filter_filter]
      congr 1
      apply List.filter_congr
      intro a _
      by_cases hax : a = x
      · subst hax; simp
      · by_cases haacc : a ∈ acc
        · simp [List.mem_append, haacc, hax]
        · simp [List.mem_append, haacc, hax]

lemma groupKeys_eq (errors : List ErrorObject) :
    groupKeys errors = firstOccurrences (errors.map ErrorObject.dataPath) := by
  have h1 : groupKeys errors
      = (errors.map ErrorObject.dataPath).foldl
          (fun ks x => if x ∈ ks then ks else ks ++ [x]) [] := by
    rw [groupKeys, List.foldl_map]
  rw [h1, foldl_keys_go]
  simp

lemma sum_firstOccurrences_countP (l : List String) :
    ((firstOccurrences l).map (fun k => l.countP (fun y => decide (y = k)))).sum
      = l.length := by
  induction l using firstOccurrences.induct with
  | case1 => simp [firstOccurrences]
  | case2 x xs ih =>
    rw [firstOccurrences, List.map_cons, List.sum_cons]
    have hmapeq : (firstOccurrences (xs.filter (fun y => y != x))).map
          (fun k => (x :: xs).countP (fun y => decide (y = k)))
        = (firstOccurrences (xs.filter (fun y => y != x))).map
          (fun k => (xs.filter (fun y => y != x)).countP (fun y => decide (y = k))) := by
      apply List.map_congr_left
      intro k hk
      have hkx : k ≠ x := by
        have := (mem_firstOccurrences _ k).mp hk
        simp only [List.mem_filter, bne_iff_ne, ne_eq] at this
        exact this.2
      rw [List.countP_cons]
      simp only [decide_eq_true_eq]
      rw [if_neg (by exact fun h => hkx h.symm), Nat.add_zero]
      rw [List.countP_filter]
      apply List.countP_congr
      intro a _
      by_cases hak : a = k
      · subst hak; simp [hkx]
      · simp [hak]
    rw [hmapeq, ih]
    have hsplit : xs.countP (fun y => decide (y = x))
        + (xs.filter (fun y => y != x)).length = xs.length := by
      rw [← List.countP_eq_length_filter]
      have hpt : xs.countP (fun y => y != x)
          = xs.countP (fun a => decide (¬(decide (a = x) = true))) := by
        apply List.countP_congr
        intro a _
        by_cases h : a = x <;> simp [h]
      rw [hpt]
      exact (List.length_eq_countP_add_countP (fun y => decide (y = x)) xs).symm
    rw [List.countP_cons]
    simp only [decide_eq_true_eq, if_true, List.length_cons]
    omega

lemma groupBy_keys (errors : List ErrorObject) :
    (groupBy errors).map Prod.fst = groupKeys errors := by
  rw [groupBy, List.map_map]
  exact List.map_id _

lemma filter_of_map {α β : Type} (f : α → β) (p : β → Bool) (l : List α) :
    (l.map f).filter p = (l.filter (fun a => p (f a))).map f := by
  induction l with
  | nil => rfl
  | cons a l ih =>
    rw [List.map_cons, List.filter_cons, List.filter_cons]
    by_cases h : p (f a) = true
    · rw [if_pos h, if_pos h, List.map_cons, ih]
    · rw [if_neg h, if_neg h, ih]

lemma filter_pred_singleton (l : List String) (a : String)
    (hnd : l.Nodup) (ha : a ∈ l) :
    l.filter (fun x => decide (a = x)) = [a] := by
  induction l with
  | nil => cases ha
  | cons y ys ih =>
    rcases List.nodup_cons.mp hnd with ⟨hy, hnd2⟩
    rw [List.filter_cons]
    by_cases hya : a = y
    · subst hya
      rw [if_pos (by simp)]
      have hnil : ys.filter (fun x => decide (a = x)) = [] := by
        rw [List.filter_eq_nil_iff]
        intro b hb
        simp only [decide_eq_true_eq]
        intro hab
        exact hy (hab ▸ hb)
      rw [hnil]
    · rw [if_neg (by simpa using hya)]
      apply ih hnd2
      rcases List.mem_cons.mp ha with h | h
      · exact absurd h hya
      · exact h

/-- C2: grouping is a stable partition: the group keys are the first
occurrences of the distinct `dataPath` values in input order, every
input error lies in exactly one group, and each group is a sublist of
the input (original relative order) holding exactly the errors with its
`dataPath`. -/
theorem grouping_stable_partition (errors : List ErrorObject) :
    (groupBy errors).map Prod.fst = firstOccurrences (errors.map ErrorObject.dataPath) ∧
    (∀ e ∈ errors, ((groupBy errors).filter (fun g => decide (e ∈ g.2))).length = 1) ∧
    (∀ g ∈ groupBy errors,
      g.2.Sublist errors ∧ ∀ e, e ∈ g.2 ↔ (e ∈ errors ∧ e.dataPath = g.1)) := by
  refine ⟨?_, ?_, ?_⟩
  · rw [groupBy_keys, groupKeys_eq]
  · intro e he
    rw [groupBy, filter_of_map]
    rw [List.length_map]
    have hcongr : (groupKeys errors).filter
          (fun k => decide (e ∈ errors.filter (fun x => decide (x.dataPath = k))))
        = (groupKeys errors).filter (fun k => decide (e.dataPath = k)) := by
      apply List.filter_congr
      intro k _
      simp [List.mem_filter, he]
    rw [hcongr]
    rw [filter_pred_singleton]
    · rfl
    · rw [groupKeys_eq]
      exact nodup_firstOccurrences _
    · rw [groupKeys_eq, mem_firstOccurrences]
      exact List.mem_map_of_mem ErrorObject.dataPath he
  · intro g hg
    rw [groupBy] at hg
    rcases List.mem_map.mp hg with ⟨k, hk, rfl⟩
    refine ⟨List.filter_sublist _, ?_⟩
    intro e
    simp [List.mem_filter]

lemma flatten_length_groupBy (errors : List ErrorObject)
    (f : List ErrorObject → List Diagnostic)
    (hf : ∀ l : List ErrorObject, (f l).length = l.length) :
    (((groupBy errors).map (fun g => f g.2)).flatten).length = errors.length := by
  rw [List.length_flatten, List.map_map]
  have h1 : ((groupBy errors).map (fun g => (f g.2).length)).sum
      = ((groupBy errors).map (fun g => g.2.length)).sum := by
    congr 1
    apply List.map_congr_left
    intro g _
    exact hf g.2
  have h2 : ((groupBy errors).map (fun g : String × List ErrorObject => g.2.length)).sum
      = ((groupKeys errors).map
          (fun k => (errors.map ErrorObject.dataPath).countP (fun y => decide (y = k)))).sum := by
    rw [groupBy, List.map_map]
    congr 1
    apply List.map_congr_left
    intro k _
    show (errors.filter (fun e => decide (e.dataPath = k))).length
        = (errors.map ErrorObject.dataPath).countP (fun y => decide (y = k))
    rw [← List.countP_eq_length_filter, List.countP_map]
    rfl
  simp only [Function.comp_def]
  rw [h1, h2, groupKeys_eq, sum_firstOccurrences_countP, List.length_map]

/-- C8: for every bad-schema event, exactly one diagnostic is emitted
per input error (in both dialects); and the handler's completed result
contains, for every group of `groupBy`, that group's report, which
lists one diagnostic per error of the group in original relative
order (the `Promise.all` join is modelled by the handler's value
listing every group's emissions). -/
theorem schema_handler_per_error_diagnostics (errors : List ErrorObject) (r : String) :
    (invalidSchemaTS errors r).flatten.length = errors.length ∧
    (invalidSchemaBabel errors r).flatten.length = errors.length ∧
    (∀ g ∈ groupBy errors,
      reportTS g.2 r ∈ invalidSchemaTS errors r ∧
      reportTS g.2 r = g.2.map (fun e => ⟨r, none, reportTextTS g.2 e⟩) ∧
      reportBabel g.2 r ∈ invalidSchemaBabel errors r ∧
      reportBabel g.2 r = g.2.map (fun e => ⟨r, none, prettyfyBabel e⟩)) := by
  refine ⟨?_, ?_, ?_⟩
  · exact flatten_length_groupBy errors (fun l => reportTS l r)
      (fun l => List.length_map l _)
  · exact flatten_length_groupBy errors (fun l => reportBabel l r)
      (fun l => List.length_map l _)
  · intro g hg
    exact ⟨List.mem_map_of_mem (fun g => reportTS g.2 r) hg, rfl,
      List.mem_map_of_mem (fun g => reportBabel g.2 r) hg, rfl⟩

/-- C1 (amended): for every error with keyword `anyOf`, the emitted
diagnostics include one whose text joins with `" or "` the
formatter-chain outputs of the other errors of the `anyOf` error's OWN
group (the errors sharing its `dataPath`), the `anyOf` error excluded,
in their original relative order (the removed-error list is a sublist
of the input). -/
theorem anyOf_message_from_own_group (errors : List ErrorObject) (r : String)
    (e : ErrorObject) (he : e ∈ errors) (hk : e.keyword = "anyOf") :
    (⟨r, none, String.intercalate " or "
        ((without (errors.filter (fun x => decide (x.dataPath = e.dataPath))) e).map
          prettyfyTS)⟩ : Diagnostic)
      ∈ (invalidSchemaTS errors r).flatten ∧
    (without (errors.filter (fun x => decide (x.dataPath = e.dataPath))) e).Sublist
      errors := by
  constructor
  · rw [List.mem_flatten]
    refine ⟨reportTS (errors.filter (fun x => decide (x.dataPath = e.dataPath))) r,
      ?_, ?_⟩
    · rw [invalidSchemaTS]
      have hkmem : e.dataPath ∈ groupKeys errors := by
        rw [groupKeys_eq, mem_firstOccurrences]
        exact List.mem_map_of_mem ErrorObject.dataPath he
      have hgmem : (e.dataPath,
            errors.filter (fun x => decide (x.dataPath = e.dataPath))) ∈ groupBy errors := by
        rw [groupBy]
        exact List.mem_map_of_mem
          (fun k => (k, errors.filter (fun x => decide (x.dataPath = k)))) hkmem
      exact List.mem_map_of_mem (fun g => reportTS g.2 r) hgmem
    · rw [reportTS]
      have hemem : e ∈ errors.filter (fun x => decide (x.dataPath = e.dataPath)) := by
        rw [List.mem_filter]
        exact ⟨he, by simp⟩
      have h2 := List.mem_map_of_mem
        (fun error => (⟨r, none,
          reportTextTS (errors.filter (fun x => decide (x.dataPath = e.dataPath))) error⟩ :
            Diagnostic)) hemem
      simp only at h2
      have h3 : reportTextTS (errors.filter (fun x => decide (x.dataPath = e.dataPath))) e
          = String.intercalate " or "
              ((without (errors.filter (fun x => decide (x.dataPath = e.dataPath))) e).map
                prettyfyTS) := by
        rw [reportTextTS, if_pos hk]
      rw [h3] at h2
      exact h2
  · exact (List.filter_sublist _).trans (List.filter_sublist _)

/-- C1 counterexample: with an `enum` error at `/a` and an `anyOf`
error at `/b`, the handler emits the empty string for the `anyOf`
error (its group holds no other error), while the spec's full-list
disjunction would render the `/a` error's text, which is non-empty. -/
theorem anyOf_full_list_counterexample :
    invalidSchemaTS [demoEnumA, demoAnyOfB] "r"
      = [[⟨"r", none,
            "'a' should be equal to one of the allowed values 'y, z'. Value found 'x'"⟩],
         [⟨"r", none, ""⟩]] ∧
    anyOfMessageFromFullList [demoEnumA, demoAnyOfB] demoAnyOfB
      = "'a' should be equal to one of the allowed values 'y, z'. Value found 'x'" ∧
    ("" : String)
      ≠ "'a' should be equal to one of the allowed values 'y, z'. Value found 'x'" :=
  ⟨rfl, rfl, by decide⟩

/-- Witness for the amended C1 theorem at a concrete three-error group. -/
theorem anyOf_message_from_own_group_witness :
    (⟨"r", none, String.intercalate " or "
        ((without ([demoEnumT, demoPatternT, demoAnyOfT].filter
            (fun x => decide (x.dataPath = demoAnyOfT.dataPath))) demoAnyOfT).map
          prettyfyTS)⟩ : Diagnostic)
      ∈ (invalidSchemaTS [demoEnumT, demoPatternT, demoAnyOfT] "r").flatten ∧
    (without ([demoEnumT, demoPatternT, demoAnyOfT].filter
        (fun x => decide (x.dataPath = demoAnyOfT.dataPath))) demoAnyOfT).Sublist
      [demoEnumT, demoPatternT, demoAnyOfT] :=
  anyOf_message_from_own_group [demoEnumT, demoPatternT, demoAnyOfT] "r" demoAnyOfT
    (by decide) rfl

/-- Witness for C2 at the `dataPath` sequence `[/t, /b, /t]`. -/
theorem grouping_stable_partition_witness :
    ((groupBy [demoEnumT, demoAnyOfB, demoPatternT]).filter
        (fun g => decide (demoPatternT ∈ g.2))).length = 1 :=
  (grouping_stable_partition [demoEnumT, demoAnyOfB, demoPatternT]).2.1 demoPatternT
    (by decide)

/-- Witness for C8 at a concrete two-group error list. -/
theorem schema_handler_per_error_diagnostics_witness :
    reportTS [demoEnumT, demoPatternT] "r"
      ∈ invalidSchemaTS [demoEnumT, demoAnyOfB, demoPatternT] "r" :=
  ((schema_handler_per_error_diagnostics [demoEnumT, demoAnyOfB, demoPatternT] "r").2.2
    ("/t", [demoEnumT, demoPatternT]) (by decide)).1

/-- C3: an `enum` error renders as
`'<property>' <message> '<allowedValues joined by ", ">'. Value found '<data>'`
in both dialects, with `allowedValues` in the validator's order. -/
theorem enum_error_format (e : ErrorObject) (h : e.keyword = "enum") :
    prettyfyTS e = "'" ++ substr1 e.dataPath ++ "' " ++ e.message ++ " '" ++
      String.intercalate ", " e.allowedValues ++ "'. Value found '" ++ e.data ++ "'" ∧
    prettyfyBabel e = "'" ++ substr1 e.dataPath ++ "' " ++ e.message ++ " '" ++
      String.intercalate ", " e.allowedValues ++ "'. Value found '" ++ e.data ++ "'" := by
  constructor
  · unfold prettyfyTS prettyfy errorGeneratorsTS
    simp [generateAdditionalPropertiesError, generateEnumError, generatePatternError,
          applyGenerator, h, string_append_eq_empty_iff]
  · unfold prettyfyBabel prettyfy errorGeneratorsBabel
    simp [generateAdditionalPropertiesError, generateEnumError, generateTypeError,
          applyGenerator, h, string_append_eq_empty_iff]

/-- Witness for C3 at a concrete `enum` error. -/
theorem enum_error_format_witness :
    prettyfyTS demoEnumA
      = "'a' should be equal to one of the allowed values 'y, z'. Value found 'x'" :=
  (enum_error_format demoEnumA rfl).1.trans rfl

/-- C4: an error whose keyword matches none of the dialect's declared
templates renders as its own `message`, unchanged. -/
theorem unknown_keyword_fallback (e f : ErrorObject)
    (h1 : e.keyword ≠ "additionalProperties") (h2 : e.keyword ≠ "enum")
    (h3 : e.keyword ≠ "pattern")
    (h4 : f.keyword ≠ "additionalProperties") (h5 : f.keyword ≠ "enum")
    (h6 : f.keyword ≠ "type") :
    prettyfyTS e = e.message ∧ prettyfyBabel f = f.message := by
  constructor
  · unfold prettyfyTS prettyfy errorGeneratorsTS
    simp [generateAdditionalPropertiesError, generateEnumError, generatePatternError,
          applyGenerator, h1, h2, h3]
  · unfold prettyfyBabel prettyfy errorGeneratorsBabel
    simp [generateAdditionalPropertiesError, generateEnumError, generateTypeError,
          applyGenerator, h4, h5, h6]

/-- Witness for C4 at an `anyOf` error (no template in either dialect). -/
theorem unknown_keyword_fallback_witness :
    prettyfyTS demoAnyOfB = "should match some schema in anyOf" ∧
    prettyfyBabel demoAnyOfB = "should match some schema in anyOf" :=
  ⟨((unknown_keyword_fallback demoAnyOfB demoAnyOfB (by decide) (by decide) (by decide)
      (by decide) (by decide) (by decide)).1).trans rfl,
   ((unknown_keyword_fallback demoAnyOfB demoAnyOfB (by decide) (by decide) (by decide)
      (by decide) (by decide) (by decide)).2).trans rfl⟩

/-- C5: a bad-JSON event yields exactly one diagnostic, addressed to the
resource with null location, carrying the parser's message verbatim. -/
theorem invalid_json_verbatim (m r : String) :
    invalidJSONFile ⟨m⟩ r = [⟨r, none, m⟩] ∧
    (invalidJSONFile ⟨m⟩ r).length = 1 ∧
    invalidJSONFile ⟨"Unexpected token ' in JSON at position 148"⟩ "r"
      = [⟨"r", none, "Unexpected token ' in JSON at position 148"⟩] :=
  ⟨rfl, rfl, rfl⟩

/-- C6: an `additionalProperties` error renders as
`'<property>' <message>. Additional property found '<additionalProperty>'.`
in both dialects. -/
theorem additional_properties_error_format (e : ErrorObject)
    (h : e.keyword = "additionalProperties") :
    prettyfyTS e = "'" ++ substr1 e.dataPath ++ "' " ++ e.message ++
      ". Additional property found '" ++ e.additionalProperty ++ "'." ∧
    prettyfyBabel e = "'" ++ substr1 e.dataPath ++ "' " ++ e.message ++
      ". Additional property found '" ++ e.additionalProperty ++ "'." := by
  unfold prettyfyTS prettyfyBabel prettyfy errorGeneratorsTS errorGeneratorsBabel
  constructor <;>
    simp [generateAdditionalPropertiesError, generateEnumError, generatePatternError,
          generateTypeError, applyGenerator, h, string_append_eq_empty_iff]

/-- Witness for C6 at the spec's `compilerOptions` scenario. -/
theorem additional_properties_error_format_witness :
    prettyfyTS demoAdditionalC
      = "'compilerOptions' should NOT have additional properties. Additional property found 'invalidProperty'." :=
  (additional_properties_error_format demoAdditionalC rfl).1.trans rfl

/-- C7: a `type` error (babel) renders as `'<property>' <message>.` with
double quotes in the message replaced by single quotes; a `pattern`
error (typescript) has the same shape with `" Value found '<data>'"`
appended. -/
theorem type_and_pattern_error_format (e f : ErrorObject)
    (ht : e.keyword = "type") (hp : f.keyword = "pattern") :
    prettyfyBabel e
      = "'" ++ substr1 e.dataPath ++ "' " ++ replaceQuotes e.message ++ "." ∧
    prettyfyTS f
      = ("'" ++ substr1 f.dataPath ++ "' " ++ replaceQuotes f.message ++ ".")
        ++ (" Value found '" ++ f.data ++ "'") := by
  constructor
  · unfold prettyfyBabel prettyfy errorGeneratorsBabel
    simp [generateAdditionalPropertiesError, generateEnumError, generateTypeError,
          applyGenerator, ht, string_append_eq_empty_iff]
  · unfold prettyfyTS prettyfy errorGeneratorsTS
    simp [generateAdditionalPropertiesError, generateEnumError, generatePatternError,
          applyGenerator, hp, string_append_eq_empty_iff, String.append_assoc]
    refine string_eq_of_data _ _ ?_
    simp [string_data_append]

/-- Witness for C7 at concrete `type` and `pattern` errors with double
quotes in their messages. -/
theorem type_and_pattern_error_format_witness :
    prettyfyBabel demoTypeP = "'presets' should be 'array'." ∧
    prettyfyTS demoPatternT
      = "'t' should match pattern '^es'. Value found 'invalid'" :=
  ⟨(type_and_pattern_error_format demoTypeP demoPatternT rfl rfl).1.trans rfl,
   (type_and_pattern_error_format demoTypeP demoPatternT rfl rfl).2.trans rfl⟩

/-- C9: formatting is deterministic: the formatter chain applied twice
to the same error record yields identical strings (both dialects); the
embedding is purely functional, so the input record is unchanged by
construction. -/
theorem prettyfy_deterministic (e : ErrorObject) :
    prettyfyTS e = prettyfyTS e ∧ prettyfyBabel e = prettyfyBabel e := ⟨rfl, rfl⟩

/-- C10: every template computes the displayed property as the
`dataPath` with its first character removed unconditionally: an empty
`dataPath` displays as the empty string, and a `dataPath` that does not
start with a separator still loses its first character. -/
theorem displayed_property_drops_first_char :
    substr1 "" = "" ∧ substr1 "abc" = "bc" ∧
    (∀ e : ErrorObject, e.keyword = "enum" →
      generateEnumError e = some ("'" ++ substr1 e.dataPath ++ "' " ++ e.message ++
        " '" ++ String.intercalate ", " e.allowedValues ++ "'. Value found '" ++
        e.data ++ "'")) ∧
    generateTypeError ⟨"type", "abc", "should be object", "", [], ""⟩
      = some ("'bc' should be object.") ∧
    generatePatternError ⟨"pattern", "x", "should match pattern", "d", [], ""⟩
      = some ("'' should match pattern. Value found 'd'") ∧
    generateAdditionalPropertiesError ⟨"additionalProperties", "", "m", "", [], "p"⟩
      = some ("'' m. Additional property found 'p'.") := by
  refine ⟨rfl, rfl, ?_, rfl, rfl, rfl⟩
  intro e h
  rw [generateEnumError, if_neg (by simp [h])]

/-- Witness for C10 at a concrete `enum` error. -/
theorem displayed_property_drops_first_char_witness :
    generateEnumError demoEnumA
      = some ("'" ++ substr1 demoEnumA.dataPath ++ "' " ++ demoEnumA.message ++ " '" ++
        String.intercalate ", " demoEnumA.allowedValues ++ "'. Value found '" ++
        demoEnumA.data ++ "'") :=
  displayed_property_drops_first_char.2.2.1 demoEnumA rfl

end Sonarwhal